import Mathlib

/-!
Shallow embedding of `wrangling_scripts/wrangle_data.py` (COVID-19 vaccination
dashboard data wrangling) and proofs of its specified properties.

A pandas `DataFrame` is modelled as a `List` of typed records; each record field
is one column of the frame.  Nullable columns are `Option` (a `none` is pandas
`NaN`/missing); the columns that take part in a division are modelled by `PVal`,
which also carries the IEEE infinities that numpy division can produce.
-/

namespace WrangleData

/-- Value of a pandas float cell: missing (`NaN`), an infinity, or a finite
rational.  `ℚ` stands in for the finite doubles that occur in the dataset. -/
inductive PVal where
  | nan : PVal
  | inf : PVal
  | ninf : PVal
  | num : ℚ → PVal
deriving DecidableEq

/-- Embedding of `Series.isna` on one cell: only `NaN` is missing; notably the
infinities are not missing for pandas. -/
def PVal.isna : PVal → Bool
  | nan => true
  | _ => false

/-- Embedding of numpy elementwise division on two cells: `x / NaN = NaN / x = NaN`,
a nonzero finite value divided by zero is a signed infinity, and `0 / 0 = NaN`. -/
def PVal.div : PVal → PVal → PVal
  | nan, _ => nan
  | inf, nan => nan
  | ninf, nan => nan
  | num _, nan => nan
  | num a, num b =>
      if b = 0 then (if a = 0 then nan else if 0 < a then inf else ninf)
      else num (a / b)
  | num _, inf => num 0
  | num _, ninf => num 0
  | inf, num b => if b < 0 then ninf else inf
  | ninf, num b => if b < 0 then inf else ninf
  | inf, inf => nan
  | inf, ninf => nan
  | ninf, inf => nan
  | ninf, ninf => nan

/-- Embedding of numpy elementwise multiplication of a cell by the scalar `100`. -/
def PVal.mulHundred : PVal → PVal
  | nan => nan
  | inf => inf
  | ninf => ninf
  | num a => num (100 * a)

/-- One row of the source csv (`data/owid-covid-data.csv`), restricted to the
columns the module touches.  `new_vaccinations_per_hundred` is the column that
`return_figures` assigns at line 174; in the raw csv it is absent, which we model
as `PVal.nan` in unprocessed rows. -/
structure Row where
  iso_code : String
  continent : Option String
  location : Option String
  date : String
  people_vaccinated : Option ℤ
  people_fully_vaccinated : Option ℤ
  people_vaccinated_per_hundred : Option ℚ
  people_fully_vaccinated_per_hundred : Option ℚ
  new_vaccinations : PVal
  population : PVal
  new_vaccinations_per_hundred : PVal
deriving DecidableEq

/-- Column labels of the modelled part of the source csv, used for the
`KeyError` behaviour of column selection in `clean_data`.  (The real csv has
further columns that the module never touches; they are not modelled.) -/
def csvColumns : List String :=
  ["iso_code", "continent", "location", "date", "people_vaccinated",
   "people_fully_vaccinated", "people_vaccinated_per_hundred",
   "people_fully_vaccinated_per_hundred", "new_vaccinations", "population"]

/-- One row of the aggregated snapshot frame `world_vax`
(`df.groupby(['iso_code'])[cols].max()` plus the derived column).
`people_partly_vaccinated` is `none` until `addPartly` assigns it. -/
structure SnapRow where
  iso_code : String
  continent : Option String
  location : Option String
  people_vaccinated : Option ℤ
  people_fully_vaccinated : Option ℤ
  people_vaccinated_per_hundred : Option ℚ
  people_fully_vaccinated_per_hundred : Option ℚ
  people_partly_vaccinated : Option ℤ
deriving DecidableEq

/-- Maximum of a list, `none` on the empty list (groupby aggregation kernel). -/
def maxAgg {α : Type} [Max α] : List α → Option α
  | [] => none
  | x :: xs => some (xs.foldl max x)

/-- Embedding of `SeriesGroupBy.max` on one column of one group: pandas skips
missing cells and yields missing when every cell of the group is missing.
String cells are compared lexicographically. -/
def colMax {α : Type} [Max α] (vals : List (Option α)) : Option α :=
  maxAgg (vals.filterMap id)

/-- Rows of one `groupby(['iso_code'])` group. -/
def groupRows (df : List Row) (k : String) : List Row :=
  df.filter fun r => r.iso_code == k

/-- Code-point lexicographic comparison of strings, the order Python uses for
string sort keys.  It coincides with the library order on `String` but is
written over `Nat` code points so that concrete group keys evaluate. -/
def strLEb (a b : String) : Bool :=
  go a.data b.data
where
  go : List Char → List Char → Bool
    | [], _ => true
    | _ :: _, [] => false
    | c :: cs, d :: ds =>
      if c.toNat < d.toNat then true
      else if d.toNat < c.toNat then false
      else go cs ds

/-- Group keys of `df.groupby(['iso_code'])`: the distinct `iso_code` values,
sorted ascending (pandas groupby default `sort=True`). -/
def groupKeys (df : List Row) : List String :=
  ((df.map Row.iso_code).dedup).insertionSort fun a b => strLEb a b = true

/-- One row of `df.groupby(['iso_code'])[cols].max()` for group key `k`.  The
`iso_code` column is constant within its group, so its maximum is the key
itself.  `people_partly_vaccinated` does not exist yet at this point. -/
def groupMaxRow (df : List Row) (k : String) : SnapRow :=
  { iso_code := k
    continent := colMax ((groupRows df k).map Row.continent)
    location := colMax ((groupRows df k).map Row.location)
    people_vaccinated := colMax ((groupRows df k).map Row.people_vaccinated)
    people_fully_vaccinated := colMax ((groupRows df k).map Row.people_fully_vaccinated)
    people_vaccinated_per_hundred :=
      colMax ((groupRows df k).map Row.people_vaccinated_per_hundred)
    people_fully_vaccinated_per_hundred :=
      colMax ((groupRows df k).map Row.people_fully_vaccinated_per_hundred)
    people_partly_vaccinated := none }

/-- Embedding of pandas elementwise subtraction of two nullable columns:
missing on either side propagates as missing. -/
def subCol : Option ℤ → Option ℤ → Option ℤ
  | some a, some b => some (a - b)
  | _, _ => none

/-- Embedding of the column assignment
`world_vax['people_partly_vaccinated'] = world_vax['people_vaccinated'] - world_vax['people_fully_vaccinated']`. -/
def addPartly (r : SnapRow) : SnapRow :=
  { r with people_partly_vaccinated := subCol r.people_vaccinated r.people_fully_vaccinated }

/-- Sort key order of `sort_values(by='people_vaccinated', ascending=False)`:
`a` may precede `b` iff the key of `a` is at least the key of `b`, with missing
keys sinking to the end (`na_position='last'`). -/
def optDescZ : Option ℤ → Option ℤ → Prop
  | some x, some y => y ≤ x
  | some _, none => True
  | none, some _ => False
  | none, none => True

instance : DecidableRel optDescZ := fun a b => by
  cases a <;> cases b <;> simp only [optDescZ] <;> infer_instance

/-- Row order that the output of
`sort_values(by='people_vaccinated', ascending=False)` satisfies. -/
def pvDesc (a b : SnapRow) : Prop :=
  optDescZ a.people_vaccinated b.people_vaccinated

instance : DecidableRel pvDesc := fun a b =>
  inferInstanceAs (Decidable (optDescZ a.people_vaccinated b.people_vaccinated))

instance : IsTotal SnapRow pvDesc := by
  constructor
  intro a b
  unfold pvDesc
  cases a.people_vaccinated with
  | none => cases b.people_vaccinated <;> simp [optDescZ]
  | some x =>
    cases b.people_vaccinated with
    | none => simp [optDescZ]
    | some y =>
      simp only [optDescZ]
      exact le_total y x

instance : IsTrans SnapRow pvDesc := by
  constructor
  intro a b c hab hbc
  unfold pvDesc at *
  rcases ha : a.people_vaccinated with _ | x <;>
    rcases hb : b.people_vaccinated with _ | y <;>
      rcases hc : c.people_vaccinated with _ | z <;>
        (rw [ha, hb] at hab; rw [hb, hc] at hbc; simp only [optDescZ] at *; try trivial)
  exact le_trans hbc hab

/-- Ascending key order on the non-missing sort keys, used for the intermediate
ascending argsort that `sort_values` performs before reversing.  Missing keys
never reach this comparison (pandas sets them aside first); the `none` cases
only make the relation total. -/
def optAscZ : Option ℤ → Option ℤ → Prop
  | none, _ => True
  | some _, none => False
  | some x, some y => x ≤ y

instance : DecidableRel optAscZ := fun a b => by
  cases a <;> cases b <;> simp only [optAscZ] <;> infer_instance

/-- Row order of the intermediate ascending argsort of
`sort_values(by='people_vaccinated')`. -/
def pvAsc (a b : SnapRow) : Prop :=
  optAscZ a.people_vaccinated b.people_vaccinated

instance : DecidableRel pvAsc := fun a b =>
  inferInstanceAs (Decidable (optAscZ a.people_vaccinated b.people_vaccinated))

instance : IsTotal SnapRow pvAsc := by
  constructor
  intro a b
  unfold pvAsc
  cases a.people_vaccinated with
  | none => cases b.people_vaccinated <;> simp [optAscZ]
  | some x =>
    cases b.people_vaccinated with
    | none => simp [optAscZ]
    | some y =>
      simp only [optAscZ]
      exact le_total x y

instance : IsTrans SnapRow pvAsc := by
  constructor
  intro a b c hab hbc
  unfold pvAsc at *
  rcases ha : a.people_vaccinated with _ | x <;>
    rcases hb : b.people_vaccinated with _ | y <;>
      rcases hc : c.people_vaccinated with _ | z <;>
        (rw [ha, hb] at hab; rw [hb, hc] at hbc; simp only [optAscZ] at *; try trivial)
  exact le_trans hab hbc

/-- Embedding of `sort_values(by='people_vaccinated', ascending=False)` on the
snapshot frame, mirroring pandas `nargsort`: rows with a missing key are set
aside, the remaining rows are argsorted ascending and that order is reversed
(`ascending=False` reverses the ascending argsort), then the missing-key rows
are appended in encountered order (`na_position='last'`).  The ascending
argsort is modelled as stable, which matches the insertion-sort kernel numpy
uses on small ranges; consequently tied keys come out in reverse of their
encountered order, not in encountered order. -/
def sortDesc (l : List SnapRow) : List SnapRow :=
  ((l.filter fun r => r.people_vaccinated.isSome).insertionSort pvAsc).reverse
    ++ l.filter fun r => r.people_vaccinated.isSome == false

/-- Embedding of the row filter `world_vax[world_vax['continent'].isna()==False]`. -/
def dropNullContinent (l : List SnapRow) : List SnapRow :=
  l.filter fun r => r.continent.isSome

/-- The snapshot frame right after the groupby/max, `reset_index(drop=True)` and
the `people_partly_vaccinated` column assignment, before sorting. -/
def snapshotUnsorted (df : List Row) : List SnapRow :=
  ((groupKeys df).map (groupMaxRow df)).map addPartly

/-- The aggregation pipeline shared verbatim by `clean_data` (lines 22 to 27)
and `vax_per_continent` (lines 43 to 47): groupby/max per `iso_code`, derive
`people_partly_vaccinated`, sort descending by `people_vaccinated`, then drop
rows with missing `continent`. -/
def buildSnapshot (df : List Row) : List SnapRow :=
  dropNullContinent (sortDesc (snapshotUnsorted df))

/-- Embedding of `clean_data(dataset, keepcols=[])`.  Reading the csv is the
caller's concern, so the first argument is already the in-memory frame.  Column
selection raises `KeyError` for a label that is not in the frame, and the body
accesses `people_vaccinated`, `people_fully_vaccinated` and `continent` in that
order, so a `keepcols` that omits any of them raises before anything is
returned.  Which further columns are retained does not change the rows of the
result, so the success path returns the full `buildSnapshot` record. -/
def clean_data (df : List Row) (keepcols : List String := []) : Except String (List SnapRow) :=
  if (keepcols.all fun c => csvColumns.contains c) = false then
    .error "KeyError: columns not in index"
  else if "people_vaccinated" ∈ keepcols then
    if "people_fully_vaccinated" ∈ keepcols then
      if "continent" ∈ keepcols then
        .ok (buildSnapshot df)
      else .error "KeyError: continent"
    else .error "KeyError: people_fully_vaccinated"
  else .error "KeyError: people_vaccinated"

/-- Embedding of the row filter `world_vax[world_vax['continent']==continent]`
(line 48): pandas `==` against a missing cell is `False`. -/
def contFilter (snap : List SnapRow) (continent : String) : List SnapRow :=
  snap.filter fun r => decide (r.continent = some continent)

/-- The frame `cont_vax` built inside `vax_per_continent(data, continent)`:
the shared snapshot pipeline followed by the continent filter. -/
def vax_per_continent_snapshot (data : List Row) (continent : String := "South America") :
    List SnapRow :=
  contFilter (buildSnapshot data) continent

/-- Chart series emitted by `vax_time_series` for one country: the `go.Scatter`
data `(x, y)` plus the series label `name = country_vax.iso_code.iloc[0]`. -/
structure Series where
  x : List String
  y : List PVal
  name : String
deriving DecidableEq

/-- The frame `country_vax` for one country (lines 89 to 90): filter to the rows
whose `location` equals the requested name, then drop the rows whose
`new_vaccinations_per_hundred` is missing. -/
def seriesRows (dataset : List Row) (country : String) : List Row :=
  (dataset.filter fun r => decide (r.location = some country)).filter
    fun r => r.new_vaccinations_per_hundred.isna == false

/-- Embedding of `vax_time_series(countries, dataset)` (lines 74 to 103).  For
each country in order a `Series` is built; `country_vax.iso_code.iloc[0]` on an
empty filtered frame raises `IndexError`, which aborts the whole call, modelled
as `Except.error`. -/
def vax_time_series (countries : List String := []) (dataset : List Row := []) :
    Except String (List Series) :=
  match countries with
  | [] => .ok []
  | c :: cs =>
    match seriesRows dataset c with
    | [] => .error "IndexError: single positional indexer is out-of-bounds"
    | r :: rs =>
      match vax_time_series cs dataset with
      | .error e => .error e
      | .ok gs =>
        .ok ({ x := (r :: rs).map Row.date,
               y := (r :: rs).map Row.new_vaccinations_per_hundred,
               name := r.iso_code } :: gs)

/-- Scalar kernel of line 174: `(new_vaccinations / population) * 100`. -/
def rateValue (numerator denominator : PVal) : PVal :=
  (numerator.div denominator).mulHundred

/-- Embedding of the column assignment
`owid['new_vaccinations_per_hundred'] = (owid['new_vaccinations']/owid['population'])*100`
(line 174 of `return_figures`). -/
def withRate (owid : List Row) : List Row :=
  owid.map fun r =>
    { r with new_vaccinations_per_hundred := rateValue r.new_vaccinations r.population }

/-- Embedding of `world_vax.head(10)` used for the bar chart of
`return_figures` (lines 150 to 163). -/
def dfHead (snap : List SnapRow) (n : Nat) : List SnapRow := snap.take n

/-- Result of one call together with the observable state of the dataframe that
was passed in, once the call returns: the embedding of a call for frame-effect
reasoning. -/
structure CallEffect (α : Type) where
  result : α
  dataAfter : List Row

/-- State-passing reading of `vax_per_continent(data, continent)`.  Every
statement of the body builds a fresh frame (`groupby(...).max()`,
`reset_index(drop=True)` with its default `inplace=False`, boolean-mask
selection) or assigns a column of such a fresh local frame (`world_vax[...] = ...`
at line 45 writes into the frame created at line 44); no statement writes
through `data`, so the dataframe observable after the call is the one passed in. -/
def vax_per_continent_call (data : List Row) (continent : String := "South America") :
    CallEffect (List SnapRow) :=
  { result := vax_per_continent_snapshot data continent
    dataAfter := data }

/-- State-passing reading of `vax_time_series(countries, dataset)`.  The body
only reads `dataset` through boolean-mask and column selections, each producing
a fresh frame bound to the local `country_vax`; `dataset` itself is never
assigned, so it is unchanged when the call returns (or raises). -/
def vax_time_series_call (countries : List String) (dataset : List Row) :
    CallEffect (Except String (List Series)) :=
  { result := vax_time_series countries dataset
    dataAfter := dataset }

/-- Row of the worked end-to-end example of the specification: region A,
continent present. -/
def rowA : Row :=
  { iso_code := "AAA"
    continent := some "X"
    location := some "A"
    date := "2021-01-01"
    people_vaccinated := some 100
    people_fully_vaccinated := some 40
    people_vaccinated_per_hundred := some 10
    people_fully_vaccinated_per_hundred := some 4
    new_vaccinations := .num 50
    population := .num 200
    new_vaccinations_per_hundred := .num 25 }

/-- Row of the worked end-to-end example of the specification: region B,
continent missing. -/
def rowB : Row :=
  { iso_code := "BBB"
    continent := none
    location := some "B"
    date := "2021-01-01"
    people_vaccinated := some 200
    people_fully_vaccinated := some 150
    people_vaccinated_per_hundred := some 20
    people_fully_vaccinated_per_hundred := some 15
    new_vaccinations := .num 80
    population := .num 400
    new_vaccinations_per_hundred := .num 20 }

/-- Row for a third region C that ties with region A on `people_vaccinated`,
used to exhibit the tie order of the descending sort. -/
def rowC : Row :=
  { iso_code := "CCC"
    continent := some "X"
    location := some "C"
    date := "2021-01-01"
    people_vaccinated := some 100
    people_fully_vaccinated := some 30
    people_vaccinated_per_hundred := some 10
    people_fully_vaccinated_per_hundred := some 3
    new_vaccinations := .num 10
    population := .num 100
    new_vaccinations_per_hundred := .num 10 }

/-- Row whose population is zero, exercising the zero-denominator path of the
derived-rate computation. -/
def rowZeroPop : Row :=
  { iso_code := "ZZZ"
    continent := some "X"
    location := some "Z"
    date := "2021-01-01"
    people_vaccinated := some 1
    people_fully_vaccinated := some 1
    people_vaccinated_per_hundred := some 1
    people_fully_vaccinated_per_hundred := some 1
    new_vaccinations := .num 50
    population := .num 0
    new_vaccinations_per_hundred := .nan }

/-- Columns passed to `clean_data` by `return_figures` and used inline by
`vax_per_continent`. -/
def snapshotCols : List String :=
  ["iso_code", "continent", "location", "people_vaccinated",
   "people_fully_vaccinated", "people_vaccinated_per_hundred",
   "people_fully_vaccinated_per_hundred"]

/-- Snapshot row that the worked example produces for region A. -/
def snapA : SnapRow :=
  { iso_code := "AAA"
    continent := some "X"
    location := some "A"
    people_vaccinated := some 100
    people_fully_vaccinated := some 40
    people_vaccinated_per_hundred := some 10
    people_fully_vaccinated_per_hundred := some 4
    people_partly_vaccinated := some 60 }

/-- Snapshot row that the tied example produces for region C. -/
def snapC : SnapRow :=
  { iso_code := "CCC"
    continent := some "X"
    location := some "C"
    people_vaccinated := some 100
    people_fully_vaccinated := some 30
    people_vaccinated_per_hundred := some 10
    people_fully_vaccinated_per_hundred := some 3
    people_partly_vaccinated := some 70 }

/-- Expected series of the worked example for country `A`. -/
def sampleSeries : Series :=
  { x := ["2021-01-01"]
    y := [.num 25]
    name := "AAA" }

section Helpers

/-- Every row of the pre-sort snapshot carries the derived column computed from
its own aggregated columns. -/
lemma mem_snapshotUnsorted {df : List Row} {r : SnapRow} (h : r ∈ snapshotUnsorted df) :
    r.people_partly_vaccinated = subCol r.people_vaccinated r.people_fully_vaccinated := by
  rcases List.mem_map.1 h with ⟨s, _, rfl⟩
  rfl

/-- The descending sort only rearranges its input rows. -/
lemma mem_sortDesc {l : List SnapRow} {r : SnapRow} : r ∈ sortDesc l ↔ r ∈ l := by
  unfold sortDesc
  rw [List.mem_append, List.mem_reverse, (List.perm_insertionSort pvAsc _).mem_iff]
  simp only [List.mem_filter]
  constructor
  · rintro (⟨h, _⟩ | ⟨h, _⟩) <;> exact h
  · intro h
    by_cases hk : r.people_vaccinated.isSome
    · exact Or.inl ⟨h, hk⟩
    · exact Or.inr ⟨h, by simp [Bool.eq_false_iff.mpr hk]⟩

/-- Membership in the final snapshot factors through the pre-sort snapshot and
the continent filter. -/
lemma mem_buildSnapshot {df : List Row} {r : SnapRow} (h : r ∈ buildSnapshot df) :
    r ∈ snapshotUnsorted df ∧ r.continent.isSome = true := by
  unfold buildSnapshot dropNullContinent at h
  have h2 := List.mem_filter.1 h
  exact ⟨mem_sortDesc.1 h2.1, h2.2⟩

/-- On the success path `clean_data` returns exactly the shared pipeline. -/
lemma clean_data_ok {df : List Row} {cols : List String} {snap : List SnapRow}
    (h : clean_data df cols = .ok snap) : snap = buildSnapshot df := by
  unfold clean_data at h
  repeat' split at h
  all_goals simp_all

/-- The continent filter only keeps rows of its input. -/
lemma mem_of_mem_contFilter {snap : List SnapRow} {c : String} {r : SnapRow}
    (h : r ∈ contFilter snap c) : r ∈ snap :=
  (List.mem_filter.1 h).1

end Helpers

/-- C1: in the snapshot returned by `clean_data` and in the snapshot built
inside `vax_per_continent`, the derived column `people_partly_vaccinated` of
every row is exactly `people_vaccinated - people_fully_vaccinated` of that row. -/
theorem partly_eq_vaccinated_sub_fully :
    (∀ df cols snap, clean_data df cols = .ok snap →
      ∀ r ∈ snap, ∀ a b, r.people_vaccinated = some a →
        r.people_fully_vaccinated = some b →
        r.people_partly_vaccinated = some (a - b))
    ∧ ∀ data c, ∀ r ∈ vax_per_continent_snapshot data c,
        ∀ a b, r.people_vaccinated = some a → r.people_fully_vaccinated = some b →
          r.people_partly_vaccinated = some (a - b) := by
  have key : ∀ (df : List Row) (r : SnapRow), r ∈ buildSnapshot df →
      ∀ a b, r.people_vaccinated = some a → r.people_fully_vaccinated = some b →
        r.people_partly_vaccinated = some (a - b) := by
    intro df r hr a b ha hb
    have h1 := mem_snapshotUnsorted (mem_buildSnapshot hr).1
    rw [h1, ha, hb]
    rfl
  constructor
  · intro df cols snap h r hr a b ha hb
    obtain rfl := clean_data_ok h
    exact key df r hr a b ha hb
  · intro data c r hr a b ha hb
    exact key data r (mem_of_mem_contFilter hr) a b ha hb

/-- C1 witness: the worked two-row example evaluates to a single snapshot row
whose derived column the theorem pins to `100 - 40`. -/
theorem partly_eq_vaccinated_sub_fully_witness :
    clean_data [rowA, rowB] snapshotCols = .ok [snapA] ∧
    snapA.people_partly_vaccinated = some (100 - 40) :=
  ⟨rfl, partly_eq_vaccinated_sub_fully.1 [rowA, rowB] snapshotCols [snapA] rfl snapA
    (List.mem_singleton.mpr rfl) 100 40 rfl rfl⟩

/-- C5: no row of the snapshot returned by `clean_data`, nor of the snapshot
built inside `vax_per_continent`, has a missing continent. -/
theorem snapshot_continent_not_null :
    (∀ df cols snap, clean_data df cols = .ok snap → ∀ r ∈ snap, r.continent ≠ none)
    ∧ ∀ data c, ∀ r ∈ vax_per_continent_snapshot data c, r.continent ≠ none := by
  have key : ∀ (df : List Row) (r : SnapRow), r ∈ buildSnapshot df → r.continent ≠ none := by
    intro df r hr hnone
    have h2 := (mem_buildSnapshot hr).2
    rw [hnone] at h2
    exact absurd h2 (by simp)
  constructor
  · intro df cols snap h r hr
    obtain rfl := clean_data_ok h
    exact key df r hr
  · intro data c r hr
    exact key data r (mem_of_mem_contFilter hr)

/-- C5 witness: the end-to-end example of the specification, where region B has
a missing continent: the snapshot is exactly the row for region A, whose
continent is present. -/
theorem snapshot_continent_not_null_witness :
    clean_data [rowA, rowB] snapshotCols = .ok [snapA] ∧ snapA.continent ≠ none :=
  ⟨rfl, snapshot_continent_not_null.1 [rowA, rowB] snapshotCols [snapA] rfl snapA
    (List.mem_singleton.mpr rfl)⟩

/-- C6: the top-N selection `head(10)` used for the bar chart returns a list of
length `min 10 (length snapshot)` that is a prefix of the sorted snapshot. -/
theorem head_ten_prefix :
    ∀ df cols snap, clean_data df cols = .ok snap →
      (dfHead snap 10).length = min 10 snap.length ∧ dfHead snap 10 <+: snap := by
  intro df cols snap _
  exact ⟨List.length_take 10 snap, List.take_prefix 10 snap⟩

/-- C6 witness: the worked example snapshot has one row, and its head-of-10 is
that whole snapshot. -/
theorem head_ten_prefix_witness :
    (dfHead [snapA] 10).length = min 10 [snapA].length ∧ dfHead [snapA] 10 <+: [snapA] :=
  head_ten_prefix [rowA, rowB] snapshotCols [snapA] rfl

/-- C8: the continent filter of `vax_per_continent` keeps exactly the snapshot
rows whose continent equals the requested name under case-sensitive string
equality, and a name matching no row yields the empty frame rather than an
error. -/
theorem continent_filter_exact :
    ∀ data c,
      (∀ r, r ∈ vax_per_continent_snapshot data c ↔
        r ∈ buildSnapshot data ∧ r.continent = some c)
      ∧ ((∀ r ∈ buildSnapshot data, r.continent ≠ some c) →
          vax_per_continent_snapshot data c = []) := by
  intro data c
  constructor
  · intro r
    unfold vax_per_continent_snapshot contFilter
    rw [List.mem_filter]
    simp only [decide_eq_true_eq]
  · intro h
    unfold vax_per_continent_snapshot contFilter
    rw [List.filter_eq_nil_iff]
    intro r hr
    simp only [decide_eq_true_eq]
    exact h r hr

/-- C8 witness: filtering the worked example by an unknown continent name gives
the empty frame. -/
theorem continent_filter_exact_witness :
    vax_per_continent_snapshot [rowA, rowB] "Nowhere" = [] :=
  (continent_filter_exact [rowA, rowB] "Nowhere").2 (by decide)

/-- Non-increasing reading of the snapshot order: later rows have keys no
larger than earlier ones, and a missing key is never followed by a present one. -/
def nonIncRel (a b : SnapRow) : Prop :=
  (∀ x y, a.people_vaccinated = some x → b.people_vaccinated = some y → y ≤ x)
  ∧ (a.people_vaccinated = none → b.people_vaccinated = none)

lemma pvDesc_imp_nonIncRel {a b : SnapRow} (h : pvDesc a b) : nonIncRel a b := by
  unfold pvDesc at h
  constructor
  · intro x y hx hy
    rw [hx, hy] at h
    exact h
  · intro hnone
    rw [hnone] at h
    cases hb : b.people_vaccinated with
    | none => rfl
    | some y =>
      rw [hb] at h
      simp only [optDescZ] at h
  
lemma pairwise_of_forall_mem {α : Type} {r : α → α → Prop} {l : List α}
    (h : ∀ a ∈ l, ∀ b ∈ l, r a b) : l.Pairwise r := by
  induction l with
  | nil => exact List.Pairwise.nil
  | cons x xs ih =>
    constructor
    · intro b hb
      exact h x (by simp) b (by simp [hb])
    · exact ih fun a ha b hb => h a (by simp [ha]) b (by simp [hb])

lemma key_none_of_mem_nan_filter {l : List SnapRow} {r : SnapRow}
    (h : r ∈ l.filter fun s => s.people_vaccinated.isSome == false) :
    r.people_vaccinated = none := by
  have h2 := (List.mem_filter.1 h).2
  rcases h3 : r.people_vaccinated with _ | x
  · rfl
  · rw [h3] at h2
    simp at h2

/-- The descending sort yields pairwise non-increasing keys with the missing
keys at the end: reversing an ascending-sorted block gives a descending block,
and every appended missing-key row sits below every present key. -/
lemma sorted_sortDesc (l : List SnapRow) : (sortDesc l).Pairwise pvDesc := by
  unfold sortDesc
  rw [List.pairwise_append]
  refine ⟨?_, ?_, ?_⟩
  · rw [List.pairwise_reverse]
    refine List.Pairwise.imp ?_ (List.sorted_insertionSort pvAsc _)
    intro a b hab
    unfold pvAsc at hab
    unfold pvDesc
    rcases ha : a.people_vaccinated with _ | x
    · rcases hb : b.people_vaccinated with _ | y
      · simp [optDescZ]
      · simp [optDescZ]
    · rcases hb : b.people_vaccinated with _ | y
      · rw [ha, hb] at hab
        simp [optAscZ] at hab
      · rw [ha, hb] at hab
        simp only [optAscZ] at hab
        simpa [optDescZ] using hab
  · apply pairwise_of_forall_mem
    intro a ha b hb
    unfold pvDesc
    rw [key_none_of_mem_nan_filter ha, key_none_of_mem_nan_filter hb]
    simp [optDescZ]
  · intro a ha b hb
    have haS : a.people_vaccinated.isSome = true :=
      (List.mem_filter.1
        ((List.perm_insertionSort pvAsc _).mem_iff.1 (List.mem_reverse.1 ha))).2
    unfold pvDesc
    rcases h4 : a.people_vaccinated with _ | x
    · rw [h4] at haS
      simp at haS
    · rw [key_none_of_mem_nan_filter hb]
      simp [optDescZ]

lemma sorted_buildSnapshot (df : List Row) : (buildSnapshot df).Pairwise pvDesc := by
  unfold buildSnapshot dropNullContinent
  exact List.Pairwise.sublist (List.filter_sublist _) (sorted_sortDesc (snapshotUnsorted df))

/-- C10: a `clean_data` call whose `keepcols` omits `people_vaccinated`,
`people_fully_vaccinated` or `continent` raises a missing-column error instead
of returning a snapshot. -/
theorem missing_keepcols_raises :
    ∀ df keepcols,
      ("people_vaccinated" ∉ keepcols ∨ "people_fully_vaccinated" ∉ keepcols ∨
        "continent" ∉ keepcols) →
      ∃ e, clean_data df keepcols = .error e := by
  intro df keepcols h
  unfold clean_data
  split
  · exact ⟨_, rfl⟩
  · split
    · split
      · split
        · rcases h with h | h | h <;> exact absurd (by assumption) h
        · exact ⟨_, rfl⟩
      · exact ⟨_, rfl⟩
    · exact ⟨_, rfl⟩

/-- C10 witness: the default call `clean_data df` (that is, `keepcols = []`)
raises. -/
theorem missing_keepcols_raises_witness :
    ∃ e, clean_data [rowA] = .error e :=
  missing_keepcols_raises [rowA] [] (Or.inl (by simp))


lemma length_seriesRows (dataset : List Row) (c : String) :
    (seriesRows dataset c).length =
      dataset.countP fun r =>
        decide (r.location = some c) && (r.new_vaccinations_per_hundred.isna == false) := by
  unfold seriesRows
  rw [List.filter_filter, List.countP_eq_length_filter]
  exact congrArg List.length (List.filter_congr fun a _ => by rw [Bool.and_comm])

/-- C2 counterexample: requesting the series of a country absent from the
source does not return an empty series; `country_vax.iso_code.iloc[0]` raises
an index error. -/
theorem vax_time_series_absent_country_cex :
    vax_time_series ["B"] [rowA] =
      .error "IndexError: single positional indexer is out-of-bounds" := rfl

/-- C2 amended: when some requested country matches no row of the table (or
none of its matching rows has a present metric), `vax_time_series` raises an
index error rather than returning an empty series for that country. -/
theorem vax_time_series_absent_country_raises :
    ∀ countries dataset,
      (∃ c ∈ countries, seriesRows dataset c = []) →
      ∃ e, vax_time_series countries dataset = .error e := by
  intro countries
  induction countries with
  | nil =>
    intro dataset h
    rcases h with ⟨c, hc, _⟩
    cases hc
  | cons c0 cs ih =>
    intro dataset h
    rcases hrows : seriesRows dataset c0 with _ | ⟨r, rs⟩
    · exact ⟨"IndexError: single positional indexer is out-of-bounds",
        by simp [vax_time_series, hrows]⟩
    · rcases h with ⟨c, hc, hempty⟩
      rcases List.mem_cons.1 hc with rfl | hmem
      · rw [hempty] at hrows
        cases hrows
      · rcases ih dataset ⟨c, hmem, hempty⟩ with ⟨e, he⟩
        exact ⟨e, by simp [vax_time_series, hrows, he]⟩

/-- C2 witness for the amended claim: the concrete absent-country request
raises. -/
theorem vax_time_series_absent_country_raises_witness :
    ∃ e, vax_time_series ["B"] [rowA] = .error e :=
  vax_time_series_absent_country_raises ["B"] [rowA] ⟨"B", by simp, rfl⟩

/-- C7: on the success path, `vax_time_series` emits one series per requested
country; every point of a series has a present metric, and the number of points
is the number of source rows whose location is that country and whose metric is
present. -/
theorem series_points_count :
    ∀ countries dataset graphs,
      vax_time_series countries dataset = .ok graphs →
      List.Forall₂
        (fun c g =>
          (∀ v ∈ g.y, v.isna = false) ∧
          g.y.length = dataset.countP
            fun r => decide (r.location = some c) &&
              (r.new_vaccinations_per_hundred.isna == false))
        countries graphs := by
  intro countries
  induction countries with
  | nil =>
    intro dataset graphs h
    simp only [vax_time_series] at h
    obtain rfl : ([] : List Series) = graphs := by
      simpa using h
    exact List.Forall₂.nil
  | cons c0 cs ih =>
    intro dataset graphs h
    rcases hrows : seriesRows dataset c0 with _ | ⟨r, rs⟩
    · simp [vax_time_series, hrows] at h
    · rcases hrec : vax_time_series cs dataset with e | gs
      · simp [vax_time_series, hrows, hrec] at h
      · simp only [vax_time_series, hrows, hrec] at h
        obtain rfl :
            ({ x := (r :: rs).map Row.date,
               y := (r :: rs).map Row.new_vaccinations_per_hundred,
               name := r.iso_code } : Series) :: gs = graphs := by
          simpa using h
        constructor
        · constructor
          · intro v hv
            rcases List.mem_map.1 hv with ⟨row, hrow, rfl⟩
            rw [← hrows] at hrow
            have h2 := (List.mem_filter.1 hrow).2
            simpa using h2
          · have hlen : ((r :: rs).map Row.new_vaccinations_per_hundred).length =
                (seriesRows dataset c0).length := by
              rw [hrows, List.length_map]
            rw [hlen, length_seriesRows]
        · exact ih dataset gs hrec

/-- C7 witness: one present country with one present-metric row yields one
series with one present point. -/
theorem series_points_count_witness :
    vax_time_series ["A"] [rowA] = .ok [sampleSeries] ∧
    List.Forall₂
      (fun c g =>
        (∀ v ∈ g.y, v.isna = false) ∧
        g.y.length = List.countP
          (fun r => decide (r.location = some c) &&
            (r.new_vaccinations_per_hundred.isna == false)) [rowA])
      ["A"] [sampleSeries] :=
  ⟨rfl, series_points_count ["A"] [rowA] [sampleSeries] rfl⟩

/-- C3 counterexample: a row with `new_vaccinations = 50` and `population = 0`
gets rate `inf`, which is neither missing nor any finite value, so a zero
denominator does not yield a null rate. -/
theorem rate_zero_denominator_cex :
    (withRate [rowZeroPop]).map (fun r => r.new_vaccinations_per_hundred) = [PVal.inf] ∧
    PVal.isna PVal.inf = false ∧ PVal.inf ≠ PVal.nan :=
  ⟨rfl, rfl, by decide⟩

/-- C3 amended: the derived column is `100 * (new_vaccinations / population)`
row-wise; a missing numerator or denominator propagates as missing, `0 / 0` is
missing, but a zero denominator under a nonzero numerator yields a signed
infinity, not a missing value. -/
theorem rate_column_semantics :
    (∀ owid i (h1 : i < (withRate owid).length) (h2 : i < owid.length),
      ((withRate owid)[i]).new_vaccinations_per_hundred =
        rateValue (owid[i]).new_vaccinations (owid[i]).population)
    ∧ (∀ a b : ℚ, b ≠ 0 → rateValue (.num a) (.num b) = .num (100 * (a / b)))
    ∧ rateValue (.num 50) (.num 200) = .num 25
    ∧ (∀ x, rateValue x .nan = .nan)
    ∧ (∀ x, rateValue .nan x = .nan)
    ∧ rateValue (.num 0) (.num 0) = .nan
    ∧ (∀ a : ℚ, 0 < a → rateValue (.num a) (.num 0) = .inf)
    ∧ (∀ a : ℚ, a < 0 → rateValue (.num a) (.num 0) = .ninf) := by
  refine ⟨?_, ?_, ?_, ?_, ?_, ?_, ?_, ?_⟩
  · intro owid i h1 h2
    simp [withRate]
  · intro a b hb
    simp [rateValue, PVal.div, PVal.mulHundred, hb]
  · have h : ((200 : ℚ)) ≠ 0 := by norm_num
    have h2 : rateValue (.num 50) (.num 200) = .num (100 * ((50 : ℚ) / 200)) := by
      simp [rateValue, PVal.div, PVal.mulHundred, h]
    rw [h2]
    norm_num
  · intro x
    cases x <;> rfl
  · intro x
    rfl
  · simp [rateValue, PVal.div, PVal.mulHundred]
  · intro a ha
    simp [rateValue, PVal.div, PVal.mulHundred, ha, ha.ne.symm]
  · intro a ha
    have hne : a ≠ 0 := ha.ne
    have hnlt : ¬ (0 < a) := not_lt.mpr ha.le
    simp [rateValue, PVal.div, PVal.mulHundred, hne, hnlt]

/-- C3 witness for the amended claim: the specified example `50 / 200` gives
`25.0`. -/
theorem rate_column_semantics_witness :
    rateValue (.num 50) (.num 200) = .num (100 * ((50 : ℚ) / 200)) :=
  rate_column_semantics.2.1 50 200 (by norm_num)

/-- C9: neither `vax_per_continent` nor `vax_time_series` mutates the dataframe
passed to it: the dataframe observable after either call is the one passed in,
so the same table can be reused for subsequent derivations. -/
theorem calls_leave_input_unchanged :
    (∀ data c, (vax_per_continent_call data c).dataAfter = data)
    ∧ ∀ countries dataset, (vax_time_series_call countries dataset).dataAfter = dataset :=
  ⟨fun _ _ => rfl, fun _ _ => rfl⟩

end WrangleData
